import Mathlib

/-!
# xusbfixer: request dispatch and input-gate logic of `Queue.c`

A shallow embedding of the queue callbacks of the xusbfixer filter driver.

The driver is written against the Kernel-Mode Driver Framework.  Its callbacks
never read the state of a framework queue; they only read the device context
and the request, and issue framework calls.  The embedding therefore has two
layers.

* The callbacks of `Queue.c` are functions that return the list of framework
  calls they make, in program order.  The results of the calls whose result
  the driver inspects (`WdfRequestSend`, `WdfRequestGetStatus`,
  `WdfRequestForwardToIoQueue`, `WdfIoQueueCreate`) are inputs, collected in
  `Framework`.
* The effect of these calls on the framework queues (started or stopped,
  requests held) is given by `exec`, following the documented behaviour of
  `WdfIoQueueStart`, `WdfIoQueueStop` and `WdfRequestForwardToIoQueue` for a
  queue with parallel dispatch.

Tracing (`TraceEvents`, `printHex`) has no effect on control flow and is left
out.  Device creation (`Device.c`) is not part of the embedding: device
contexts are inputs.  The parameters `OutputBufferLength` and `InputBufferLength` of the queue
callbacks are only traced by the source and are left out as well.  Callbacks
are run one at a time; interleavings of concurrently running callbacks are not
modelled.
-/

namespace Xusbfixer

/-! ## Status codes and constants -/

/-- An `NTSTATUS` value: a signed 32-bit integer. -/
abbrev NTSTATUS := Int

/-- The `NT_SUCCESS` test of the Windows headers, `((NTSTATUS)(Status)) >= 0`. -/
def NT_SUCCESS (Status : NTSTATUS) : Bool := decide (0 ≤ Status)

/-- Status codes are those of the Windows header `ntstatus.h`. -/
def STATUS_SUCCESS : NTSTATUS := 0

/-- Value `0xC000000D` read as a signed 32-bit integer. -/
def STATUS_INVALID_PARAMETER : NTSTATUS := 0xC000000D - 0x100000000

/-- Value `0xC00000F3` read as a signed 32-bit integer. -/
def STATUS_INVALID_PARAMETER_5 : NTSTATUS := 0xC00000F3 - 0x100000000

/-- Value `0xC000009A` read as a signed 32-bit integer. -/
def STATUS_INSUFFICIENT_RESOURCES : NTSTATUS := 0xC000009A - 0x100000000

/-- Value `0xC0000010` read as a signed 32-bit integer. -/
def STATUS_INVALID_DEVICE_REQUEST : NTSTATUS := 0xC0000010 - 0x100000000

/-- Control code of the Windows header `usbioctl.h`; the source repeats its
value in a comment. -/
def IOCTL_INTERNAL_USB_SUBMIT_URB : Nat := 0x220003

/-- URB function code of the Windows header `usb.h`. -/
def URB_FUNCTION_BULK_OR_INTERRUPT_TRANSFER : Nat := 0x0009

/-- Transfer flag of the Windows header `usb.h`: bit 0. -/
def USBD_TRANSFER_DIRECTION_IN : Nat := 0x00000001

/-! ## Data model -/

/-- Handle of a framework queue. -/
abbrev WDFQUEUE := Nat

/-- The fields of a `URB` that the driver reads.  `Function` is
`UrbHeader.Function`; the other fields are those of
`UrbBulkOrInterruptTransfer`.  `TransferBuffer` lists the bytes that can be
read at the pointer of that name, the empty list for a null pointer;
`TransferBufferLength` is the separate length field of the source, which the
list need not match. -/
structure URB where
  Function : Nat
  PipeHandle : Nat
  TransferFlags : Nat
  TransferBufferLength : Nat
  TransferBuffer : List Nat
  deriving DecidableEq, Repr

/-- A framework request as far as the driver looks at it.  `IoControlCode` is
the code the framework passes to a queue callback for this request,
`InputBuffer` is what `WdfRequestRetrieveInputBuffer(Request, 0, ..)` yields
(`none` when it fails, otherwise the buffer, whose length is the reported
`len`), and `Urb` is `URB_FROM_IRP(WdfRequestWdmGetIrp(Request))`. -/
structure WDFREQUEST where
  id : Nat
  IoControlCode : Nat
  InputBuffer : Option (List Nat)
  Urb : URB
  deriving DecidableEq, Repr

/-- The device context of `Device.h`.  `LowerDeviceObject` is `none` for a null
pointer and `InputWaitQueue` is `none` for a null handle. -/
structure DEVICE_CONTEXT where
  LowerDeviceObject : Option Nat
  InputWaitQueue : Option WDFQUEUE
  Upper : Bool
  deriving DecidableEq, Repr

/-- The two completion routines of `Queue.c`. -/
inductive PFN_WDF_REQUEST_COMPLETION_ROUTINE where
  | UpperCompletionRoutine
  | LowerInternalCompletionRoutine
  deriving DecidableEq, Repr

/-- The part `IoStatus` of the completion parameters: the status of the
completed request and its information (the byte count). -/
structure IO_STATUS_BLOCK where
  Status : NTSTATUS
  Information : Nat
  deriving DecidableEq, Repr

/-- The completion parameters as far as the completion routines read them. -/
structure WDF_REQUEST_COMPLETION_PARAMS where
  IoStatus : IO_STATUS_BLOCK
  deriving DecidableEq, Repr

/-- A framework call made by the driver, with its arguments and, where the
driver inspects it, its return value.

`WdfRequestSend Request SendAndForget CompletionRoutine ret`: the request is
sent to the local I/O target of the device (`WdfDeviceGetIoTarget(hDevice)`),
with option `WDF_REQUEST_SEND_OPTION_SEND_AND_FORGET` when `SendAndForget`, and
otherwise after `WdfRequestFormatRequestUsingCurrentType` and
`WdfRequestSetCompletionRoutine(Request, CompletionRoutine, NULL)`. -/
inductive Call where
  | WdfRequestSend (Request : WDFREQUEST) (SendAndForget : Bool)
      (CompletionRoutine : Option PFN_WDF_REQUEST_COMPLETION_ROUTINE) (ret : Bool)
  | WdfRequestComplete (Request : WDFREQUEST) (Status : NTSTATUS)
  | WdfRequestCompleteWithInformation (Request : WDFREQUEST) (Status : NTSTATUS)
      (Information : Nat)
  | WdfRequestForwardToIoQueue (Request : WDFREQUEST) (DestinationQueue : WDFQUEUE)
      (ret : NTSTATUS)
  | WdfIoQueueStart (Queue : WDFQUEUE)
  | WdfIoQueueStop (Queue : WDFQUEUE)
  deriving DecidableEq, Repr

/-- Results of the framework calls whose outcome the driver inspects, and the
build flavour.  `sendRet` is the return value of `WdfRequestSend`,
`sendStatus` the value of `WdfRequestGetStatus` after a failed send, and
`forwardRet` the return value of `WdfRequestForwardToIoQueue`. -/
structure Framework where
  DBG : Bool
  sendRet : WDFREQUEST → Bool
  sendStatus : WDFREQUEST → NTSTATUS
  forwardRet : WDFREQUEST → NTSTATUS

/-! ## The callbacks of `Queue.c` -/

/-- Embedding of `xusbfixerDispatchPassThrough`: send and forget; a failed send
is completed with the status the request carries. -/
def xusbfixerDispatchPassThrough (fw : Framework) (Request : WDFREQUEST) : List Call :=
  let ret := fw.sendRet Request
  if ret = false then
    let status := fw.sendStatus Request
    [Call.WdfRequestSend Request true none ret, Call.WdfRequestComplete Request status]
  else
    [Call.WdfRequestSend Request true none ret]

/-- Embedding of `xusbfixerDispatchPassThroughAndComplete`: send with a
completion routine; a failed send is completed with the status the request
carries. -/
def xusbfixerDispatchPassThroughAndComplete (fw : Framework) (Request : WDFREQUEST)
    (CompletionRoutine : PFN_WDF_REQUEST_COMPLETION_ROUTINE) : List Call :=
  let ret := fw.sendRet Request
  if ret = false then
    let status := fw.sendStatus Request
    [Call.WdfRequestSend Request false (some CompletionRoutine) ret,
     Call.WdfRequestComplete Request status]
  else
    [Call.WdfRequestSend Request false (some CompletionRoutine) ret]

/-- The test `len >= 2 && (buffer[0] > 1 || buffer[1] != 1)` of
`xusbfixerEvtIoDeviceControl`, with `len` the length of the retrieved buffer.
The bytes are read only when `len >= 2`, so the default of `getD` is never
used. -/
def legacyPayloadRejected (buffer : List Nat) : Bool :=
  decide (2 ≤ buffer.length) &&
    (decide (1 < buffer.getD 0 0) || decide (buffer.getD 1 0 ≠ 1))

/-- Embedding of `xusbfixerEvtIoDeviceControl`, the callback of the default
queue of an upper filter device. -/
def xusbfixerEvtIoDeviceControl (fw : Framework) (deviceContext : DEVICE_CONTEXT)
    (Request : WDFREQUEST) (IoControlCode : Nat) : List Call :=
  match deviceContext.InputWaitQueue with
  | some InputWaitQueue =>
    if IoControlCode = 0x8000E3AC then
      let status := fw.forwardRet Request
      if NT_SUCCESS status = false then
        [Call.WdfRequestForwardToIoQueue Request InputWaitQueue status,
         Call.WdfRequestComplete Request status]
      else
        [Call.WdfRequestForwardToIoQueue Request InputWaitQueue status]
    else
      xusbfixerDispatchPassThrough fw Request
  | none =>
    if IoControlCode = 0x8000E004 then
      match Request.InputBuffer with
      | some buffer =>
        if legacyPayloadRejected buffer = true then
          [Call.WdfRequestComplete Request STATUS_INVALID_PARAMETER]
        else
          xusbfixerDispatchPassThrough fw Request
      | none => xusbfixerDispatchPassThrough fw Request
    else
      xusbfixerDispatchPassThrough fw Request

/-- Embedding of `UpperCompletionRoutine`. -/
def UpperCompletionRoutine (Request : WDFREQUEST)
    (Params : WDF_REQUEST_COMPLETION_PARAMS) : List Call :=
  [Call.WdfRequestCompleteWithInformation Request Params.IoStatus.Status
    Params.IoStatus.Information]

/-- Embedding of `xusbfixerDispatchWaitForInput`, the callback of the input
wait queue.  The debug build sends with `UpperCompletionRoutine`, the release
build sends and forgets. -/
def xusbfixerDispatchWaitForInput (fw : Framework) (Request : WDFREQUEST)
    (IoControlCode : Nat) : List Call :=
  if IoControlCode ≠ 0x8000E3AC then
    [Call.WdfRequestComplete Request STATUS_INVALID_PARAMETER_5]
  else if fw.DBG = true then
    xusbfixerDispatchPassThroughAndComplete fw Request
      PFN_WDF_REQUEST_COMPLETION_ROUTINE.UpperCompletionRoutine
  else
    xusbfixerDispatchPassThrough fw Request

/-- Embedding of `LowerInternalCompletionRoutine`.  `lowerDeviceContext` is the
context of the device owning the queue of the request.

On a success status the source evaluates `bufferLength >= 14 && buffer[0] == 0`
and so reads `buffer[0]` whenever the length is at least 14, without a check of
the pointer.  When the buffer has no byte 0 there (a null `TransferBuffer`, as
in a transfer described by an MDL) that read faults before any framework call
is made: the result is `none` and the request is not completed.  Otherwise the
result is the list of calls made.  The argument `buffer[0]` of the trace call
in the other branch is not modelled, like all tracing. -/
def LowerInternalCompletionRoutine (lowerDeviceContext : DEVICE_CONTEXT)
    (Request : WDFREQUEST) (Params : WDF_REQUEST_COMPLETION_PARAMS) : Option (List Call) :=
  let complete : List Call :=
    [Call.WdfRequestCompleteWithInformation Request Params.IoStatus.Status
      Params.IoStatus.Information]
  if NT_SUCCESS Params.IoStatus.Status = true then
    let buffer := Request.Urb.TransferBuffer
    let bufferLength := Request.Urb.TransferBufferLength
    if 14 ≤ bufferLength then
      match buffer[0]? with
      | none => none
      | some byte0 =>
        if byte0 = 0 then
          match lowerDeviceContext.InputWaitQueue with
          | some InputWaitQueue => some ([Call.WdfIoQueueStop InputWaitQueue] ++ complete)
          | none => some complete
        else
          some complete
    else
      some complete
  else
    some complete

/-- The test `pTransfer->TransferFlags & USBD_TRANSFER_DIRECTION_IN`. -/
def directionIn (TransferFlags : Nat) : Bool :=
  (TransferFlags &&& USBD_TRANSFER_DIRECTION_IN) != 0

/-- The nested conditions under which `xusbfixerEvtIoInternalDeviceControl`
intercepts a request: submit-URB code, bulk-or-interrupt function, IN
direction, pipe handle `0xFFFF0081`. -/
def isDesignatedInputTransfer (Request : WDFREQUEST) (IoControlCode : Nat) : Bool :=
  decide (IoControlCode = IOCTL_INTERNAL_USB_SUBMIT_URB) &&
    (decide (Request.Urb.Function = URB_FUNCTION_BULK_OR_INTERRUPT_TRANSFER) &&
      (directionIn Request.Urb.TransferFlags && decide (Request.Urb.PipeHandle = 0xFFFF0081)))

/-- Embedding of `xusbfixerEvtIoInternalDeviceControl`, the callback of the
default queue of a lower filter device. -/
def xusbfixerEvtIoInternalDeviceControl (fw : Framework) (deviceContext : DEVICE_CONTEXT)
    (Request : WDFREQUEST) (IoControlCode : Nat) : List Call :=
  if IoControlCode = IOCTL_INTERNAL_USB_SUBMIT_URB then
    let urb := Request.Urb
    if urb.Function = URB_FUNCTION_BULK_OR_INTERRUPT_TRANSFER then
      if directionIn urb.TransferFlags = true ∧ urb.PipeHandle = 0xFFFF0081 then
        (match deviceContext.InputWaitQueue with
          | some InputWaitQueue => [Call.WdfIoQueueStart InputWaitQueue]
          | none => [])
        ++ xusbfixerDispatchPassThroughAndComplete fw Request
             PFN_WDF_REQUEST_COMPLETION_ROUTINE.LowerInternalCompletionRoutine
      else
        xusbfixerDispatchPassThrough fw Request
    else
      xusbfixerDispatchPassThrough fw Request
  else
    xusbfixerDispatchPassThrough fw Request

/-! ## Framework queues -/

/-- State of a framework queue.  A started queue delivers requests to its
callback (the Gate is Open); a stopped queue stores them (the Gate is
Closed). -/
inductive QueueState where
  | Started
  | Stopped
  deriving DecidableEq, Repr

/-- A framework queue: its state and the requests it stores, oldest first. -/
structure IoQueue where
  state : QueueState
  held : List WDFREQUEST
  deriving DecidableEq, Repr

/-- The framework queues, by handle, and the framework calls made so far, in
order. -/
structure World where
  queues : WDFQUEUE → IoQueue
  log : List Call

/-- The calls made when the framework presents requests, oldest first, to the
callback `xusbfixerDispatchWaitForInput`, which `xusbfixerQueueInitialize`
registers as `EvtIoDeviceControl` of the input wait queue, the only queue the
driver forwards requests to. -/
def dispatchHeld (fw : Framework) : List WDFREQUEST → List Call
  | [] => []
  | Request :: rest =>
    xusbfixerDispatchWaitForInput fw Request Request.IoControlCode ++ dispatchHeld fw rest

/-- Delivery by a queue with parallel dispatch: a started queue presents every
stored request to its callback at once; a stopped queue keeps them.  The
callback only sends and completes requests, which leaves the queues as they
are, so its calls go to the log. -/
def pump (fw : Framework) (w : World) (Queue : WDFQUEUE) : World :=
  match (w.queues Queue).state with
  | QueueState.Started =>
    { queues := Function.update w.queues Queue { w.queues Queue with held := [] },
      log := w.log ++ dispatchHeld fw (w.queues Queue).held }
  | QueueState.Stopped => w

/-- Effect of one framework call.  `WdfIoQueueStart` starts the queue and
delivers what it stores; `WdfIoQueueStop` stops delivery while the queue goes
on storing; a successful `WdfRequestForwardToIoQueue` adds the request to the
queue, which delivers it if started; sending and completing a request does not
touch the queues.  Every call is logged. -/
def exec (fw : Framework) (w : World) (c : Call) : World :=
  match c with
  | Call.WdfIoQueueStart Queue =>
    pump fw
      { queues := Function.update w.queues Queue
          { w.queues Queue with state := QueueState.Started },
        log := w.log ++ [c] } Queue
  | Call.WdfIoQueueStop Queue =>
    { queues := Function.update w.queues Queue
        { w.queues Queue with state := QueueState.Stopped },
      log := w.log ++ [c] }
  | Call.WdfRequestForwardToIoQueue Request Queue ret =>
    if NT_SUCCESS ret = true then
      pump fw
        { queues := Function.update w.queues Queue
            { w.queues Queue with held := (w.queues Queue).held ++ [Request] },
          log := w.log ++ [c] } Queue
    else
      { w with log := w.log ++ [c] }
  | _ => { w with log := w.log ++ [c] }

/-- Effect of a sequence of framework calls, in order. -/
def run (fw : Framework) (w : World) (calls : List Call) : World :=
  calls.foldl (exec fw) w

/-- A request arrives at the default queue of the upper device. -/
def upperRequestArrives (fw : Framework) (deviceContext : DEVICE_CONTEXT) (w : World)
    (Request : WDFREQUEST) : World :=
  run fw w (xusbfixerEvtIoDeviceControl fw deviceContext Request Request.IoControlCode)

/-- A request arrives at the default queue of the lower device. -/
def lowerRequestArrives (fw : Framework) (deviceContext : DEVICE_CONTEXT) (w : World)
    (Request : WDFREQUEST) : World :=
  run fw w (xusbfixerEvtIoInternalDeviceControl fw deviceContext Request Request.IoControlCode)

/-- A transfer sent with `LowerInternalCompletionRoutine` completes: the world
after the calls of the routine, or `none` when the routine faults. -/
def transferCompletes (fw : Framework) (lowerDeviceContext : DEVICE_CONTEXT) (w : World)
    (Request : WDFREQUEST) (Params : WDF_REQUEST_COMPLETION_PARAMS) : Option World :=
  (LowerInternalCompletionRoutine lowerDeviceContext Request Params).map (run fw w)

/-! ## Queue creation -/

/-- The three queue callbacks of `Queue.h`. -/
inductive EVT_WDF_IO_QUEUE_IO_DEVICE_CONTROL where
  | xusbfixerEvtIoDeviceControl
  | xusbfixerDispatchWaitForInput
  | xusbfixerEvtIoInternalDeviceControl
  deriving DecidableEq, Repr

/-- The fields of `WDF_IO_QUEUE_CONFIG` that `xusbfixerQueueInitialize` sets.
Both queues use `WdfIoQueueDispatchParallel`. -/
structure WDF_IO_QUEUE_CONFIG where
  DefaultQueue : Bool
  EvtIoDeviceControl : Option EVT_WDF_IO_QUEUE_IO_DEVICE_CONTROL
  EvtIoInternalDeviceControl : Option EVT_WDF_IO_QUEUE_IO_DEVICE_CONTROL
  deriving DecidableEq, Repr

/-- What `xusbfixerQueueInitialize` leaves behind: its return value, the
context of the device, the context found at
`LowerDeviceObject->DeviceExtension`, and the handles passed to
`WdfObjectReference`. -/
structure QueueInitializeResult where
  status : NTSTATUS
  deviceContext : DEVICE_CONTEXT
  lowerContext : DEVICE_CONTEXT
  referenced : List WDFQUEUE
  deriving DecidableEq, Repr

/-- The configuration `xusbfixerQueueInitialize` gives the default queue: the
upper device handles device-control requests, the lower device internal
device-control requests. -/
def defaultQueueConfig (Upper : Bool) : WDF_IO_QUEUE_CONFIG :=
  if Upper = true then
    { DefaultQueue := true,
      EvtIoDeviceControl := some EVT_WDF_IO_QUEUE_IO_DEVICE_CONTROL.xusbfixerEvtIoDeviceControl,
      EvtIoInternalDeviceControl := none }
  else
    { DefaultQueue := true,
      EvtIoDeviceControl := none,
      EvtIoInternalDeviceControl :=
        some EVT_WDF_IO_QUEUE_IO_DEVICE_CONTROL.xusbfixerEvtIoInternalDeviceControl }

/-- The configuration `xusbfixerQueueInitialize` gives the input wait queue. -/
def inputWaitQueueConfig : WDF_IO_QUEUE_CONFIG :=
  { DefaultQueue := false,
    EvtIoDeviceControl := some EVT_WDF_IO_QUEUE_IO_DEVICE_CONTROL.xusbfixerDispatchWaitForInput,
    EvtIoInternalDeviceControl := none }

/-- Embedding of `xusbfixerQueueInitialize`.  `WdfIoQueueCreate` gives, for a
queue configuration, the status returned and the handle of the new queue; the
handle is stored through the output pointer only when the call succeeds.
`lowerContext` is read and written only when `LowerDeviceObject` is set. -/
def xusbfixerQueueInitialize (WdfIoQueueCreate : WDF_IO_QUEUE_CONFIG → NTSTATUS × WDFQUEUE)
    (deviceContext lowerContext : DEVICE_CONTEXT) : QueueInitializeResult :=
  let queueConfig := defaultQueueConfig deviceContext.Upper
  let status := (WdfIoQueueCreate queueConfig).1
  if NT_SUCCESS status = false then
    { status := status, deviceContext := deviceContext, lowerContext := lowerContext,
      referenced := [] }
  else if deviceContext.Upper = true ∧ deviceContext.LowerDeviceObject.isSome = true then
    let status := (WdfIoQueueCreate inputWaitQueueConfig).1
    if NT_SUCCESS status = true then
      let InputWaitQueue := (WdfIoQueueCreate inputWaitQueueConfig).2
      { status := status,
        deviceContext := { deviceContext with InputWaitQueue := some InputWaitQueue },
        lowerContext := { lowerContext with InputWaitQueue := some InputWaitQueue },
        referenced := [InputWaitQueue] }
    else
      { status := status, deviceContext := deviceContext, lowerContext := lowerContext,
        referenced := [] }
  else
    { status := status, deviceContext := deviceContext, lowerContext := lowerContext,
      referenced := [] }

/-! ## Measures on call lists -/

/-- The calls of a list that complete a request, in order. -/
def completionCalls : List Call → List Call
  | [] => []
  | Call.WdfRequestComplete r s :: rest =>
    Call.WdfRequestComplete r s :: completionCalls rest
  | Call.WdfRequestCompleteWithInformation r s i :: rest =>
    Call.WdfRequestCompleteWithInformation r s i :: completionCalls rest
  | _ :: rest => completionCalls rest

/-- The calls of a list that start or stop a queue, in order. -/
def gateCalls : List Call → List Call
  | [] => []
  | Call.WdfIoQueueStart q :: rest => Call.WdfIoQueueStart q :: gateCalls rest
  | Call.WdfIoQueueStop q :: rest => Call.WdfIoQueueStop q :: gateCalls rest
  | _ :: rest => gateCalls rest

/-- Whether a call list hands the given request off: a `WdfRequestSend` of it
that returned `TRUE`, or a `WdfRequestForwardToIoQueue` of it that returned a
success status. -/
def handedOff (Request : WDFREQUEST) : List Call → Bool
  | [] => false
  | Call.WdfRequestSend r _ _ ret :: rest =>
    (decide (r = Request) && ret) || handedOff Request rest
  | Call.WdfRequestForwardToIoQueue r _ ret :: rest =>
    (decide (r = Request) && NT_SUCCESS ret) || handedOff Request rest
  | _ :: rest => handedOff Request rest

/-- Number of `WdfRequestSend` calls in a list. -/
def sends : List Call → Nat
  | [] => 0
  | Call.WdfRequestSend _ _ _ _ :: rest => 1 + sends rest
  | _ :: rest => sends rest

/-- Number of `WdfRequestForwardToIoQueue` calls in a list. -/
def forwards : List Call → Nat
  | [] => 0
  | Call.WdfRequestForwardToIoQueue _ _ _ :: rest => 1 + forwards rest
  | _ :: rest => forwards rest

/-- Single disposition of a request by a call list: either the request is
handed off and no request is completed, or it is not handed off and the one
completing call of the list completes this request. -/
def singleDisposition (Request : WDFREQUEST) (calls : List Call) : Prop :=
  (handedOff Request calls = true ∧ completionCalls calls = []) ∨
    (handedOff Request calls = false ∧
      ∃ Status, completionCalls calls = [Call.WdfRequestComplete Request Status])

/-! ## Concrete data used in the examples -/

/-- Handle of the input wait queue in the examples. -/
def exGate : WDFQUEUE := 1

/-- Context of an upper device that shares a Gate with its lower device. -/
def exUpperContext : DEVICE_CONTEXT :=
  { LowerDeviceObject := some 100, InputWaitQueue := some exGate, Upper := true }

/-- Context of the paired lower device. -/
def exLowerContext : DEVICE_CONTEXT :=
  { LowerDeviceObject := none, InputWaitQueue := some exGate, Upper := false }

/-- Context of an upper device without Gate. -/
def exLegacyContext : DEVICE_CONTEXT :=
  { LowerDeviceObject := none, InputWaitQueue := none, Upper := true }

/-- Context of an upper device before its queues are created. -/
def exFreshUpperContext : DEVICE_CONTEXT :=
  { LowerDeviceObject := some 100, InputWaitQueue := none, Upper := true }

/-- Context of a lower device before the upper device creates the Gate. -/
def exFreshLowerContext : DEVICE_CONTEXT :=
  { LowerDeviceObject := none, InputWaitQueue := none, Upper := false }

/-- A request that carries no transfer. -/
def exNoUrb : URB :=
  { Function := 0, PipeHandle := 0, TransferFlags := 0, TransferBufferLength := 0,
    TransferBuffer := [] }

/-- A wait-for-input request (`0x8000E3AC`). -/
def exWait (n : Nat) : WDFREQUEST :=
  { id := n, IoControlCode := 0x8000E3AC, InputBuffer := none, Urb := exNoUrb }

/-- A legacy get-state request (`0x8000E004`) with the given input payload. -/
def exLegacy (n : Nat) (payload : List Nat) : WDFREQUEST :=
  { id := n, IoControlCode := 0x8000E004, InputBuffer := some payload, Urb := exNoUrb }

/-- An interrupt IN transfer on pipe `0xFFFF0081` as submitted: 20 bytes of
buffer, flags IN and short-transfer-ok. -/
def exSubmit (n : Nat) : WDFREQUEST :=
  { id := n, IoControlCode := 0x220003, InputBuffer := none,
    Urb := { Function := URB_FUNCTION_BULK_OR_INTERRUPT_TRANSFER, PipeHandle := 0xFFFF0081,
             TransferFlags := 3, TransferBufferLength := 20,
             TransferBuffer := List.replicate 20 0xFF } }

/-- The same transfer as completed: a 20-byte report whose byte 0 is 0. -/
def exSubmitDone (n : Nat) : WDFREQUEST :=
  { id := n, IoControlCode := 0x220003, InputBuffer := none,
    Urb := { Function := URB_FUNCTION_BULK_OR_INTERRUPT_TRANSFER, PipeHandle := 0xFFFF0081,
             TransferFlags := 3, TransferBufferLength := 20,
             TransferBuffer := [0x00, 0x14] ++ List.replicate 18 0 } }

/-- An interrupt OUT transfer on pipe `0xFFFF0002`. -/
def exSubmitOut (n : Nat) : WDFREQUEST :=
  { id := n, IoControlCode := 0x220003, InputBuffer := none,
    Urb := { Function := URB_FUNCTION_BULK_OR_INTERRUPT_TRANSFER, PipeHandle := 0xFFFF0002,
             TransferFlags := 0, TransferBufferLength := 3, TransferBuffer := [1, 3, 0] } }

/-- Completion parameters: success, 20 bytes. -/
def exSuccess : WDF_REQUEST_COMPLETION_PARAMS :=
  { IoStatus := { Status := STATUS_SUCCESS, Information := 20 } }

/-- Completion parameters: failure. -/
def exFailure : WDF_REQUEST_COMPLETION_PARAMS :=
  { IoStatus := { Status := STATUS_INVALID_DEVICE_REQUEST, Information := 0 } }

/-- A framework in which every send and every enqueue succeeds. -/
def exFramework (dbg : Bool) : Framework :=
  { DBG := dbg, sendRet := fun _ => true, sendStatus := fun _ => STATUS_SUCCESS,
    forwardRet := fun _ => STATUS_SUCCESS }

/-- A framework in which every send and every enqueue fails and the status
reported for the failure is `STATUS_INVALID_PARAMETER`. -/
def exInvalidParameterFramework (dbg : Bool) : Framework :=
  { DBG := dbg, sendRet := fun _ => false,
    sendStatus := fun _ => STATUS_INVALID_PARAMETER,
    forwardRet := fun _ => STATUS_INVALID_PARAMETER }

/-- A framework in which every send and every enqueue fails. -/
def exFailingFramework (dbg : Bool) : Framework :=
  { DBG := dbg, sendRet := fun _ => false,
    sendStatus := fun _ => STATUS_INVALID_DEVICE_REQUEST,
    forwardRet := fun _ => STATUS_INVALID_DEVICE_REQUEST }

/-- All queues started and empty, nothing logged: the Gate is Open. -/
def exOpenWorld : World :=
  { queues := fun _ => { state := QueueState.Started, held := [] }, log := [] }

/-- All queues stopped, the Gate holding one wait request. -/
def exClosedWorld : World :=
  { queues := fun _ => { state := QueueState.Stopped, held := [exWait 7] }, log := [] }

/-- Queue creation in which the default queue is created and the input wait
queue is not. -/
def exCreateGateFails (config : WDF_IO_QUEUE_CONFIG) : NTSTATUS × WDFQUEUE :=
  if config.DefaultQueue = true then (STATUS_SUCCESS, 5) else (STATUS_INSUFFICIENT_RESOURCES, 0)

/-- Queue creation in which both queues are created. -/
def exCreateOk (config : WDF_IO_QUEUE_CONFIG) : NTSTATUS × WDFQUEUE :=
  if config.DefaultQueue = true then (STATUS_SUCCESS, 5) else (STATUS_SUCCESS, exGate)

/-- Scenario, step 1: from an Open Gate, a wait-for-input request arrives at
the upper device. -/
def exStep1 (dbg : Bool) : World :=
  upperRequestArrives (exFramework dbg) exUpperContext exOpenWorld (exWait 1)

/-- Scenario, step 2: an IN transfer on the designated pipe arrives at the lower
device. -/
def exStep2 (dbg : Bool) : World :=
  lowerRequestArrives (exFramework dbg) exLowerContext (exStep1 dbg) (exSubmit 10)

/-- Scenario, step 3: a second wait-for-input request arrives. -/
def exStep3 (dbg : Bool) : World :=
  upperRequestArrives (exFramework dbg) exUpperContext (exStep2 dbg) (exWait 2)

/-- Scenario, step 4: the transfer completes with success, length 20 and byte 0
equal to 0. -/
def exStep4 (dbg : Bool) : Option World :=
  transferCompletes (exFramework dbg) exLowerContext (exStep3 dbg) (exSubmitDone 10) exSuccess

/-- Scenario, step 5: a third wait-for-input request arrives. -/
def exStep5 (dbg : Bool) : Option World :=
  (exStep4 dbg).map
    (fun w => upperRequestArrives (exFramework dbg) exUpperContext w (exWait 3))

/-- Scenario, step 6: a new IN transfer on the designated pipe arrives. -/
def exStep6 (dbg : Bool) : Option World :=
  (exStep5 dbg).map
    (fun w => lowerRequestArrives (exFramework dbg) exLowerContext w (exSubmit 11))

/-- The send by which `xusbfixerDispatchWaitForInput` passes a request down
when the send succeeds: with `UpperCompletionRoutine` in the debug build, send
and forget in the release build. -/
def exWaitSent (dbg : Bool) (Request : WDFREQUEST) : Call :=
  if dbg = true then
    Call.WdfRequestSend Request false
      (some PFN_WDF_REQUEST_COMPLETION_ROUTINE.UpperCompletionRoutine) true
  else
    Call.WdfRequestSend Request true none true

/-! ## Lemmas on the framework model -/

theorem run_nil (fw : Framework) (w : World) : run fw w [] = w := rfl

theorem run_cons (fw : Framework) (w : World) (c : Call) (cs : List Call) :
    run fw w (c :: cs) = run fw (exec fw w c) cs := rfl

theorem run_append (fw : Framework) (w : World) (cs ds : List Call) :
    run fw w (cs ++ ds) = run fw (run fw w cs) ds := by
  simp [run, List.foldl_append]

theorem exec_send_queues (fw : Framework) (w : World) (r : WDFREQUEST) (f : Bool)
    (c : Option PFN_WDF_REQUEST_COMPLETION_ROUTINE) (ret : Bool) :
    (exec fw w (Call.WdfRequestSend r f c ret)).queues = w.queues := rfl

theorem exec_complete_queues (fw : Framework) (w : World) (r : WDFREQUEST) (s : NTSTATUS) :
    (exec fw w (Call.WdfRequestComplete r s)).queues = w.queues := rfl

theorem exec_completeInfo_queues (fw : Framework) (w : World) (r : WDFREQUEST)
    (s : NTSTATUS) (i : Nat) :
    (exec fw w (Call.WdfRequestCompleteWithInformation r s i)).queues = w.queues := rfl

theorem run_passThrough_queues (fw : Framework) (w : World) (r : WDFREQUEST) :
    (run fw w (xusbfixerDispatchPassThrough fw r)).queues = w.queues := by
  unfold xusbfixerDispatchPassThrough
  cases fw.sendRet r <;> rfl

theorem run_passThroughAndComplete_queues (fw : Framework) (w : World) (r : WDFREQUEST)
    (c : PFN_WDF_REQUEST_COMPLETION_ROUTINE) :
    (run fw w (xusbfixerDispatchPassThroughAndComplete fw r c)).queues = w.queues := by
  unfold xusbfixerDispatchPassThroughAndComplete
  cases fw.sendRet r <;> rfl

/-- Delivery never changes the state of a queue. -/
theorem pump_state (fw : Framework) (w : World) (Queue q : WDFQUEUE) :
    ((pump fw w Queue).queues q).state = (w.queues q).state := by
  unfold pump
  cases h : (w.queues Queue).state with
  | Stopped => rfl
  | Started =>
    by_cases hq : q = Queue
    · subst hq; simp [h]
    · simp [Function.update_noteq hq]

/-- A stopped queue delivers nothing. -/
theorem pump_stopped (fw : Framework) (w : World) (Queue : WDFQUEUE)
    (h : (w.queues Queue).state = QueueState.Stopped) : pump fw w Queue = w := by
  unfold pump
  rw [h]

theorem exec_stop_state (fw : Framework) (w : World) (Queue : WDFQUEUE) :
    ((exec fw w (Call.WdfIoQueueStop Queue)).queues Queue).state = QueueState.Stopped := by
  simp [exec]

theorem exec_start_state (fw : Framework) (w : World) (Queue : WDFQUEUE) :
    ((exec fw w (Call.WdfIoQueueStart Queue)).queues Queue).state = QueueState.Started := by
  simp [exec, pump_state]

/-- After a start, the queue holds nothing. -/
theorem exec_start_held (fw : Framework) (w : World) (Queue : WDFQUEUE) :
    ((exec fw w (Call.WdfIoQueueStart Queue)).queues Queue).held = [] := by
  simp [exec, pump]

/-- A start logs the call and then what the delivery of the held requests
logs. -/
theorem exec_start_log (fw : Framework) (w : World) (Queue : WDFQUEUE) :
    (exec fw w (Call.WdfIoQueueStart Queue)).log =
      w.log ++ [Call.WdfIoQueueStart Queue] ++ dispatchHeld fw (w.queues Queue).held := by
  simp [exec, pump]

/-! ## Lemmas on the callbacks -/

theorem completionCalls_passThrough (fw : Framework) (r : WDFREQUEST) :
    completionCalls (xusbfixerDispatchPassThrough fw r) =
      (if fw.sendRet r = true then [] else [Call.WdfRequestComplete r (fw.sendStatus r)]) := by
  unfold xusbfixerDispatchPassThrough
  cases fw.sendRet r <;> simp [completionCalls]

theorem handedOff_passThrough (fw : Framework) (r : WDFREQUEST) :
    handedOff r (xusbfixerDispatchPassThrough fw r) = fw.sendRet r := by
  unfold xusbfixerDispatchPassThrough
  cases h : fw.sendRet r <;> simp [handedOff]

theorem completionCalls_passThroughAndComplete (fw : Framework) (r : WDFREQUEST)
    (c : PFN_WDF_REQUEST_COMPLETION_ROUTINE) :
    completionCalls (xusbfixerDispatchPassThroughAndComplete fw r c) =
      (if fw.sendRet r = true then [] else [Call.WdfRequestComplete r (fw.sendStatus r)]) := by
  unfold xusbfixerDispatchPassThroughAndComplete
  cases fw.sendRet r <;> simp [completionCalls]

theorem handedOff_passThroughAndComplete (fw : Framework) (r : WDFREQUEST)
    (c : PFN_WDF_REQUEST_COMPLETION_ROUTINE) :
    handedOff r (xusbfixerDispatchPassThroughAndComplete fw r c) = fw.sendRet r := by
  unfold xusbfixerDispatchPassThroughAndComplete
  cases h : fw.sendRet r <;> simp [handedOff]

/-- The lower callback by cases on its intercept test. -/
theorem xusbfixerEvtIoInternalDeviceControl_eq (fw : Framework) (deviceContext : DEVICE_CONTEXT)
    (Request : WDFREQUEST) (IoControlCode : Nat) :
    xusbfixerEvtIoInternalDeviceControl fw deviceContext Request IoControlCode =
      if isDesignatedInputTransfer Request IoControlCode = true then
        (match deviceContext.InputWaitQueue with
          | some InputWaitQueue => [Call.WdfIoQueueStart InputWaitQueue]
          | none => [])
        ++ xusbfixerDispatchPassThroughAndComplete fw Request
             PFN_WDF_REQUEST_COMPLETION_ROUTINE.LowerInternalCompletionRoutine
      else
        xusbfixerDispatchPassThrough fw Request := by
  unfold xusbfixerEvtIoInternalDeviceControl isDesignatedInputTransfer
  by_cases h1 : IoControlCode = IOCTL_INTERNAL_USB_SUBMIT_URB
  · by_cases h2 : Request.Urb.Function = URB_FUNCTION_BULK_OR_INTERRUPT_TRANSFER
    · by_cases h3 : directionIn Request.Urb.TransferFlags = true
      · by_cases h4 : Request.Urb.PipeHandle = 0xFFFF0081
        · simp [h1, h2, h3, h4]
        · simp [h1, h2, h3, h4]
      · simp [h1, h2, h3]
    · simp [h1, h2]
  · simp [h1]

/-- The completion routine when it does not read the buffer: on a failure
status or a length below 14 it only completes the request. -/
theorem LowerInternalCompletionRoutine_unread (lowerDeviceContext : DEVICE_CONTEXT)
    (Request : WDFREQUEST) (Params : WDF_REQUEST_COMPLETION_PARAMS)
    (h : NT_SUCCESS Params.IoStatus.Status = false ∨ Request.Urb.TransferBufferLength < 14) :
    LowerInternalCompletionRoutine lowerDeviceContext Request Params =
      some [Call.WdfRequestCompleteWithInformation Request Params.IoStatus.Status
        Params.IoStatus.Information] := by
  unfold LowerInternalCompletionRoutine
  rcases h with h | h
  · simp [h]
  · have hLen : ¬ (14 ≤ Request.Urb.TransferBufferLength) := by omega
    by_cases hs : NT_SUCCESS Params.IoStatus.Status = true
    · simp [hs, hLen]
    · simp [hs]

/-- The completion routine when byte 0 of the buffer can be read: it stops the
Gate exactly when the status is a success, the length is at least 14, the byte
is 0 and the context has a Gate, and then completes the request. -/
theorem LowerInternalCompletionRoutine_readable (lowerDeviceContext : DEVICE_CONTEXT)
    (Request : WDFREQUEST) (Params : WDF_REQUEST_COMPLETION_PARAMS) (byte0 : Nat)
    (hByte : Request.Urb.TransferBuffer[0]? = some byte0) :
    LowerInternalCompletionRoutine lowerDeviceContext Request Params =
      some ((if NT_SUCCESS Params.IoStatus.Status = true ∧
                14 ≤ Request.Urb.TransferBufferLength ∧ byte0 = 0 then
              (match lowerDeviceContext.InputWaitQueue with
                | some InputWaitQueue => [Call.WdfIoQueueStop InputWaitQueue]
                | none => [])
            else [])
        ++ [Call.WdfRequestCompleteWithInformation Request Params.IoStatus.Status
              Params.IoStatus.Information]) := by
  unfold LowerInternalCompletionRoutine
  by_cases h1 : NT_SUCCESS Params.IoStatus.Status = true
  · by_cases h2 : 14 ≤ Request.Urb.TransferBufferLength
    · by_cases h3 : byte0 = 0
      · cases hq : lowerDeviceContext.InputWaitQueue <;> simp [h1, h2, h3, hByte]
      · simp [h1, h2, h3, hByte]
    · simp [h1, h2]
  · simp [h1]

/-- The fault of the completion routine: on a success status and a length of at
least 14, a buffer without byte 0 makes the routine fault, so that no call is
made and the request is not completed. -/
theorem LowerInternalCompletionRoutine_fault (lowerDeviceContext : DEVICE_CONTEXT)
    (Request : WDFREQUEST) (Params : WDF_REQUEST_COMPLETION_PARAMS)
    (hStatus : NT_SUCCESS Params.IoStatus.Status = true)
    (hLength : 14 ≤ Request.Urb.TransferBufferLength)
    (hNull : Request.Urb.TransferBuffer = []) :
    LowerInternalCompletionRoutine lowerDeviceContext Request Params = none := by
  unfold LowerInternalCompletionRoutine
  simp [hStatus, hLength, hNull]

/-! ## The claims -/

/-- C1: on a lower context that has a Gate, when a transfer completes with a
success status, a transfer buffer length of at least 14 and byte 0 of the
buffer equal to 0, `LowerInternalCompletionRoutine` returns after stopping the
Gate and then completing the request; the Gate is Closed afterwards, whatever
state the queues were in before. -/
theorem C1_genuine_report_closes_gate (fw : Framework) (w : World)
    (lowerDeviceContext : DEVICE_CONTEXT) (Request : WDFREQUEST)
    (Params : WDF_REQUEST_COMPLETION_PARAMS) (Gate : WDFQUEUE)
    (hGate : lowerDeviceContext.InputWaitQueue = some Gate)
    (hStatus : NT_SUCCESS Params.IoStatus.Status = true)
    (hLength : 14 ≤ Request.Urb.TransferBufferLength)
    (hByte : Request.Urb.TransferBuffer[0]? = some 0) :
    LowerInternalCompletionRoutine lowerDeviceContext Request Params =
        some [Call.WdfIoQueueStop Gate,
          Call.WdfRequestCompleteWithInformation Request Params.IoStatus.Status
            Params.IoStatus.Information] ∧
      ∃ after, transferCompletes fw lowerDeviceContext w Request Params = some after ∧
        (after.queues Gate).state = QueueState.Stopped := by
  have hCalls : LowerInternalCompletionRoutine lowerDeviceContext Request Params =
      some [Call.WdfIoQueueStop Gate,
        Call.WdfRequestCompleteWithInformation Request Params.IoStatus.Status
          Params.IoStatus.Information] := by
    rw [LowerInternalCompletionRoutine_readable lowerDeviceContext Request Params 0 hByte]
    simp [hStatus, hLength, hGate]
  refine ⟨hCalls, _, by rw [transferCompletes, hCalls]; rfl, ?_⟩
  rw [run_cons, run_cons, run_nil, exec_completeInfo_queues]
  exact exec_stop_state fw w Gate

/-- C1 at a concrete completion, once from an Open Gate and once from a Closed
Gate that holds a request. -/
theorem C1_genuine_report_closes_gate_witness :
    ((exOpenWorld.queues exGate).state = QueueState.Started ∧
      ∃ after, transferCompletes (exFramework false) exLowerContext exOpenWorld
          (exSubmitDone 10) exSuccess = some after ∧
        (after.queues exGate).state = QueueState.Stopped) ∧
    ((exClosedWorld.queues exGate).state = QueueState.Stopped ∧
      ∃ after, transferCompletes (exFramework false) exLowerContext exClosedWorld
          (exSubmitDone 10) exSuccess = some after ∧
        (after.queues exGate).state = QueueState.Stopped) :=
  ⟨⟨rfl, (C1_genuine_report_closes_gate (exFramework false) exOpenWorld exLowerContext
      (exSubmitDone 10) exSuccess exGate rfl (by decide) (by decide) (by decide)).2⟩,
   ⟨rfl, (C1_genuine_report_closes_gate (exFramework false) exClosedWorld exLowerContext
      (exSubmitDone 10) exSuccess exGate rfl (by decide) (by decide) (by decide)).2⟩⟩

/-- C2: when a transfer completes and is not a genuine report (the status is a
failure, or the transfer buffer length is below 14, or byte 0 of the buffer is
not 0), `LowerInternalCompletionRoutine` returns after making no call other
than completing the request: it neither starts nor stops a queue, and every
queue is afterwards as it was before, in state and in what it holds. -/
theorem C2_other_completions_leave_gate (fw : Framework) (w : World)
    (lowerDeviceContext : DEVICE_CONTEXT) (Request : WDFREQUEST)
    (Params : WDF_REQUEST_COMPLETION_PARAMS)
    (hNot : NT_SUCCESS Params.IoStatus.Status = false ∨
      Request.Urb.TransferBufferLength < 14 ∨
      ∃ b, Request.Urb.TransferBuffer[0]? = some b ∧ b ≠ 0) :
    (∃ calls, LowerInternalCompletionRoutine lowerDeviceContext Request Params = some calls ∧
        gateCalls calls = []) ∧
      ∃ after, transferCompletes fw lowerDeviceContext w Request Params = some after ∧
        after.queues = w.queues := by
  have hCalls : LowerInternalCompletionRoutine lowerDeviceContext Request Params =
      some [Call.WdfRequestCompleteWithInformation Request Params.IoStatus.Status
        Params.IoStatus.Information] := by
    rcases hNot with h | h | ⟨b, hb, hne⟩
    · exact LowerInternalCompletionRoutine_unread lowerDeviceContext Request Params (Or.inl h)
    · exact LowerInternalCompletionRoutine_unread lowerDeviceContext Request Params (Or.inr h)
    · rw [LowerInternalCompletionRoutine_readable lowerDeviceContext Request Params b hb]
      simp [hne]
  refine ⟨⟨_, hCalls, rfl⟩,
    run fw w [Call.WdfRequestCompleteWithInformation Request Params.IoStatus.Status
      Params.IoStatus.Information], ?_, rfl⟩
  rw [transferCompletes, hCalls]
  rfl

/-- C2 at three concrete completions: a failed one and a short one on a Closed
Gate holding a request, and one whose byte 0 is `0xFF` on an Open Gate. -/
theorem C2_other_completions_leave_gate_witness :
    (∃ after, transferCompletes (exFramework false) exLowerContext exClosedWorld
        (exSubmitDone 10) exFailure = some after ∧ after.queues = exClosedWorld.queues) ∧
      (∃ after, transferCompletes (exFramework false) exLowerContext exClosedWorld
        (exSubmitOut 11) exSuccess = some after ∧ after.queues = exClosedWorld.queues) ∧
      (∃ after, transferCompletes (exFramework false) exLowerContext exOpenWorld
        (exSubmit 12) exSuccess = some after ∧ after.queues = exOpenWorld.queues) :=
  ⟨(C2_other_completions_leave_gate (exFramework false) exClosedWorld exLowerContext
      (exSubmitDone 10) exFailure (Or.inl (by decide))).2,
   (C2_other_completions_leave_gate (exFramework false) exClosedWorld exLowerContext
      (exSubmitOut 11) exSuccess (Or.inr (Or.inl (by decide)))).2,
   (C2_other_completions_leave_gate (exFramework false) exOpenWorld exLowerContext
      (exSubmit 12) exSuccess (Or.inr (Or.inr ⟨0xFF, by decide, by decide⟩))).2⟩

/-- C3: a submit-URB request (`0x220003`) for a bulk-or-interrupt transfer with
the IN bit set in its flags and pipe handle `0xFFFF0081`, arriving at a lower
device whose context has a Gate, makes `xusbfixerEvtIoInternalDeviceControl`
start the Gate first and then send the request with
`LowerInternalCompletionRoutine` attached and without the send-and-forget
option (completing it with the reported status if the send fails).  The Gate
is Open right after the start and still Open when the callback returns,
whatever state the queues were in before. -/
theorem C3_designated_input_opens_gate (fw : Framework) (w : World)
    (deviceContext : DEVICE_CONTEXT) (Request : WDFREQUEST) (IoControlCode : Nat)
    (Gate : WDFQUEUE)
    (hGate : deviceContext.InputWaitQueue = some Gate)
    (hCode : IoControlCode = 0x220003)
    (hFunction : Request.Urb.Function = URB_FUNCTION_BULK_OR_INTERRUPT_TRANSFER)
    (hIn : Request.Urb.TransferFlags &&& USBD_TRANSFER_DIRECTION_IN ≠ 0)
    (hPipe : Request.Urb.PipeHandle = 0xFFFF0081) :
    xusbfixerEvtIoInternalDeviceControl fw deviceContext Request IoControlCode =
        [Call.WdfIoQueueStart Gate,
         Call.WdfRequestSend Request false
           (some PFN_WDF_REQUEST_COMPLETION_ROUTINE.LowerInternalCompletionRoutine)
           (fw.sendRet Request)] ++
          (if fw.sendRet Request = true then []
           else [Call.WdfRequestComplete Request (fw.sendStatus Request)]) ∧
      ((exec fw w (Call.WdfIoQueueStart Gate)).queues Gate).state = QueueState.Started ∧
      ((run fw w (xusbfixerEvtIoInternalDeviceControl fw deviceContext Request
        IoControlCode)).queues Gate).state = QueueState.Started := by
  have hTest : isDesignatedInputTransfer Request IoControlCode = true := by
    simp [isDesignatedInputTransfer, directionIn, hCode, hFunction, hIn, hPipe,
      IOCTL_INTERNAL_USB_SUBMIT_URB]
  have hCalls : xusbfixerEvtIoInternalDeviceControl fw deviceContext Request IoControlCode =
      [Call.WdfIoQueueStart Gate] ++ xusbfixerDispatchPassThroughAndComplete fw Request
        PFN_WDF_REQUEST_COMPLETION_ROUTINE.LowerInternalCompletionRoutine := by
    rw [xusbfixerEvtIoInternalDeviceControl_eq, if_pos hTest, hGate]
  refine ⟨?_, exec_start_state fw w Gate, ?_⟩
  · rw [hCalls]
    unfold xusbfixerDispatchPassThroughAndComplete
    cases fw.sendRet Request <;> simp
  · rw [hCalls, run_append, run_passThroughAndComplete_queues, run_cons, run_nil]
    exact exec_start_state fw w Gate

/-- C3 at a concrete transfer arriving while the Gate is Closed and holds a
request: the Gate is Open afterwards and holds nothing. -/
theorem C3_designated_input_opens_gate_witness :
    (exClosedWorld.queues exGate).state = QueueState.Stopped ∧
      ((run (exFramework false) exClosedWorld (xusbfixerEvtIoInternalDeviceControl
        (exFramework false) exLowerContext (exSubmit 10) 0x220003)).queues exGate).state =
          QueueState.Started ∧
      ((run (exFramework false) exClosedWorld (xusbfixerEvtIoInternalDeviceControl
        (exFramework false) exLowerContext (exSubmit 10) 0x220003)).queues exGate).held = [] :=
  ⟨rfl,
   (C3_designated_input_opens_gate (exFramework false) exClosedWorld exLowerContext
      (exSubmit 10) 0x220003 exGate rfl rfl rfl (by decide) rfl).2.2,
   by decide⟩

/-- C9: a request at the lower device that is not a submit-URB request for a
bulk-or-interrupt transfer with the IN bit set and pipe handle `0xFFFF0081` is
sent with the send-and-forget option and without completion routine; if the
send fails, the request is completed with the status it then carries.  No
queue is started or stopped and every queue is afterwards as it was before. -/
theorem C9_other_requests_pass_through (fw : Framework) (w : World)
    (deviceContext : DEVICE_CONTEXT) (Request : WDFREQUEST) (IoControlCode : Nat)
    (hOther : ¬ (IoControlCode = 0x220003 ∧
      Request.Urb.Function = URB_FUNCTION_BULK_OR_INTERRUPT_TRANSFER ∧
      Request.Urb.TransferFlags &&& USBD_TRANSFER_DIRECTION_IN ≠ 0 ∧
      Request.Urb.PipeHandle = 0xFFFF0081)) :
    xusbfixerEvtIoInternalDeviceControl fw deviceContext Request IoControlCode =
        Call.WdfRequestSend Request true none (fw.sendRet Request) ::
          (if fw.sendRet Request = true then []
           else [Call.WdfRequestComplete Request (fw.sendStatus Request)]) ∧
      gateCalls (xusbfixerEvtIoInternalDeviceControl fw deviceContext Request
        IoControlCode) = [] ∧
      (run fw w (xusbfixerEvtIoInternalDeviceControl fw deviceContext Request
        IoControlCode)).queues = w.queues := by
  have hTest : ¬ (isDesignatedInputTransfer Request IoControlCode = true) := by
    intro h
    apply hOther
    simpa [isDesignatedInputTransfer, directionIn, IOCTL_INTERNAL_USB_SUBMIT_URB] using h
  have hCalls : xusbfixerEvtIoInternalDeviceControl fw deviceContext Request IoControlCode =
      xusbfixerDispatchPassThrough fw Request := by
    rw [xusbfixerEvtIoInternalDeviceControl_eq, if_neg hTest]
  refine ⟨?_, ?_, ?_⟩
  · rw [hCalls]
    unfold xusbfixerDispatchPassThrough
    cases fw.sendRet Request <;> simp
  · rw [hCalls]
    unfold xusbfixerDispatchPassThrough
    cases fw.sendRet Request <;> simp [gateCalls]
  · rw [hCalls]
    exact run_passThrough_queues fw w Request

/-- C9 at concrete requests on a Closed Gate: an OUT transfer whose send
succeeds, and one whose send fails and which is completed with the reported
status. -/
theorem C9_other_requests_pass_through_witness :
    (xusbfixerEvtIoInternalDeviceControl (exFramework false) exLowerContext (exSubmitOut 11)
        0x220003 = [Call.WdfRequestSend (exSubmitOut 11) true none true] ∧
      (run (exFramework false) exClosedWorld (xusbfixerEvtIoInternalDeviceControl
        (exFramework false) exLowerContext (exSubmitOut 11) 0x220003)).queues =
          exClosedWorld.queues) ∧
    xusbfixerEvtIoInternalDeviceControl (exFailingFramework false) exLowerContext
        (exSubmitOut 11) 0x220003 =
      [Call.WdfRequestSend (exSubmitOut 11) true none false,
       Call.WdfRequestComplete (exSubmitOut 11) STATUS_INVALID_DEVICE_REQUEST] :=
  ⟨⟨(C9_other_requests_pass_through (exFramework false) exClosedWorld exLowerContext
        (exSubmitOut 11) 0x220003 (by decide)).1,
     (C9_other_requests_pass_through (exFramework false) exClosedWorld exLowerContext
        (exSubmitOut 11) 0x220003 (by decide)).2.2⟩,
   (C9_other_requests_pass_through (exFailingFramework false) exClosedWorld exLowerContext
      (exSubmitOut 11) 0x220003 (by decide)).1⟩

/-- C8: a wait-for-input request (`0x8000E3AC`) at an upper device whose context
has a Gate makes `xusbfixerEvtIoDeviceControl` call
`WdfRequestForwardToIoQueue` on the Gate, once, and send nothing.  If that call
returns a failure status the request is completed with that same status;
otherwise the callback makes no further call.  A request enqueued while the
Gate is Closed is stored behind the requests already held. -/
theorem C8_wait_for_input_enqueued (fw : Framework) (w : World)
    (deviceContext : DEVICE_CONTEXT) (Request : WDFREQUEST) (Gate : WDFQUEUE)
    (hGate : deviceContext.InputWaitQueue = some Gate) :
    xusbfixerEvtIoDeviceControl fw deviceContext Request 0x8000E3AC =
        Call.WdfRequestForwardToIoQueue Request Gate (fw.forwardRet Request) ::
          (if NT_SUCCESS (fw.forwardRet Request) = true then []
           else [Call.WdfRequestComplete Request (fw.forwardRet Request)]) ∧
      sends (xusbfixerEvtIoDeviceControl fw deviceContext Request 0x8000E3AC) = 0 ∧
      forwards (xusbfixerEvtIoDeviceControl fw deviceContext Request 0x8000E3AC) = 1 ∧
      (NT_SUCCESS (fw.forwardRet Request) = true →
        (w.queues Gate).state = QueueState.Stopped →
        ((run fw w (xusbfixerEvtIoDeviceControl fw deviceContext Request
          0x8000E3AC)).queues Gate).held = (w.queues Gate).held ++ [Request]) := by
  have hCalls : xusbfixerEvtIoDeviceControl fw deviceContext Request 0x8000E3AC =
      Call.WdfRequestForwardToIoQueue Request Gate (fw.forwardRet Request) ::
        (if NT_SUCCESS (fw.forwardRet Request) = true then []
         else [Call.WdfRequestComplete Request (fw.forwardRet Request)]) := by
    unfold xusbfixerEvtIoDeviceControl
    rw [hGate]
    cases h : NT_SUCCESS (fw.forwardRet Request) <;> simp [h]
  refine ⟨hCalls, ?_, ?_, ?_⟩
  · rw [hCalls]
    cases NT_SUCCESS (fw.forwardRet Request) <;> simp [sends]
  · rw [hCalls]
    cases NT_SUCCESS (fw.forwardRet Request) <;> simp [forwards]
  · intro hOk hStopped
    rw [hCalls, hOk]
    simp only [if_true, run_cons, run_nil, exec, hOk]
    rw [pump_stopped]
    · simp
    · simpa using hStopped

/-- C8 at concrete requests: an enqueue that fails is completed with the status
of the enqueue, and an enqueue into a Closed Gate is held behind the request
already there. -/
theorem C8_wait_for_input_enqueued_witness :
    xusbfixerEvtIoDeviceControl (exFailingFramework false) exUpperContext (exWait 2)
        0x8000E3AC =
      [Call.WdfRequestForwardToIoQueue (exWait 2) exGate STATUS_INVALID_DEVICE_REQUEST,
       Call.WdfRequestComplete (exWait 2) STATUS_INVALID_DEVICE_REQUEST] ∧
    ((run (exFramework false) exClosedWorld (xusbfixerEvtIoDeviceControl (exFramework false)
        exUpperContext (exWait 2) 0x8000E3AC)).queues exGate).held = [exWait 7, exWait 2] :=
  ⟨(C8_wait_for_input_enqueued (exFailingFramework false) exClosedWorld exUpperContext
      (exWait 2) exGate rfl).1,
   (C8_wait_for_input_enqueued (exFramework false) exClosedWorld exUpperContext
      (exWait 2) exGate rfl).2.2.2 (by decide) rfl⟩

/-- The legacy payload test holds exactly for a payload of at least two bytes
whose first byte exceeds 1 or whose second byte is not 1. -/
theorem legacyPayloadRejected_iff (buffer : List Nat) :
    legacyPayloadRejected buffer = true ↔
      ∃ b0 b1 rest, buffer = b0 :: b1 :: rest ∧ (1 < b0 ∨ b1 ≠ 1) := by
  match buffer with
  | [] => simp [legacyPayloadRejected]
  | [_] => simp [legacyPayloadRejected]
  | b0 :: b1 :: rest =>
    constructor
    · intro h
      exact ⟨b0, b1, rest, rfl, by simpa [legacyPayloadRejected] using h⟩
    · rintro ⟨c0, c1, r, hEq, h⟩
      simp only [List.cons.injEq] at hEq
      obtain ⟨rfl, rfl, rfl⟩ := hEq
      simpa [legacyPayloadRejected] using h

/-- A pass-through begins with a send, so it is never a lone completion. -/
theorem passThrough_ne_complete (fw : Framework) (r : WDFREQUEST) (s : NTSTATUS) :
    xusbfixerDispatchPassThrough fw r ≠ [Call.WdfRequestComplete r s] := by
  unfold xusbfixerDispatchPassThrough
  cases fw.sendRet r <;> simp

/-- A pass-through, call by call: one send with the send-and-forget option and
without completion routine, followed by the completion with the reported
status only when the send returned `FALSE`. -/
theorem xusbfixerDispatchPassThrough_eq (fw : Framework) (r : WDFREQUEST) :
    xusbfixerDispatchPassThrough fw r =
      Call.WdfRequestSend r true none (fw.sendRet r) ::
        (if fw.sendRet r = true then [] else [Call.WdfRequestComplete r (fw.sendStatus r)]) := by
  unfold xusbfixerDispatchPassThrough
  cases fw.sendRet r <;> simp

/-- C4, as the code has it.  `xusbfixerEvtIoDeviceControl` completes a request
with `STATUS_INVALID_PARAMETER` without sending or enqueuing it if and only if
the context has no Gate, the control code is `0x8000E004`, the input buffer is
retrieved with at least two bytes, and byte 0 exceeds 1 or byte 1 is not 1;
that completion is then its only call.  In every other case without Gate (a
payload shorter than two bytes and a buffer that cannot be retrieved included)
the request is passed through: it is sent with the send-and-forget option and
without completion routine, and completed, with the status the framework
reports, only when that send fails.  Without Gate and with code `0x8000E004`,
the payloads `00 01` and `01 01` are passed through and the payloads `02 01`
and `00 02` are rejected.  Any completion other than the rejection follows a
failed send or a failed enqueue and carries the status the framework reported
for it. -/
theorem C4_legacy_validation (fw : Framework) (deviceContext : DEVICE_CONTEXT)
    (Request : WDFREQUEST) (IoControlCode : Nat) :
    ((Call.WdfRequestComplete Request STATUS_INVALID_PARAMETER ∈
          xusbfixerEvtIoDeviceControl fw deviceContext Request IoControlCode ∧
        sends (xusbfixerEvtIoDeviceControl fw deviceContext Request IoControlCode) = 0 ∧
        forwards (xusbfixerEvtIoDeviceControl fw deviceContext Request IoControlCode) = 0) ↔
      deviceContext.InputWaitQueue = none ∧ IoControlCode = 0x8000E004 ∧
        ∃ b0 b1 rest, Request.InputBuffer = some (b0 :: b1 :: rest) ∧ (1 < b0 ∨ b1 ≠ 1)) ∧
    (deviceContext.InputWaitQueue = none ∧ IoControlCode = 0x8000E004 ∧
        (∃ b0 b1 rest, Request.InputBuffer = some (b0 :: b1 :: rest) ∧ (1 < b0 ∨ b1 ≠ 1)) →
      xusbfixerEvtIoDeviceControl fw deviceContext Request IoControlCode =
        [Call.WdfRequestComplete Request STATUS_INVALID_PARAMETER]) ∧
    (deviceContext.InputWaitQueue = none →
      ¬ (IoControlCode = 0x8000E004 ∧
        ∃ b0 b1 rest, Request.InputBuffer = some (b0 :: b1 :: rest) ∧ (1 < b0 ∨ b1 ≠ 1)) →
      xusbfixerEvtIoDeviceControl fw deviceContext Request IoControlCode =
        Call.WdfRequestSend Request true none (fw.sendRet Request) ::
          (if fw.sendRet Request = true then []
           else [Call.WdfRequestComplete Request (fw.sendStatus Request)])) ∧
    (xusbfixerEvtIoDeviceControl fw { deviceContext with InputWaitQueue := none }
        { Request with InputBuffer := some [0x00, 0x01] } 0x8000E004 =
      Call.WdfRequestSend { Request with InputBuffer := some [0x00, 0x01] } true none
          (fw.sendRet { Request with InputBuffer := some [0x00, 0x01] }) ::
        (if fw.sendRet { Request with InputBuffer := some [0x00, 0x01] } = true then []
         else [Call.WdfRequestComplete { Request with InputBuffer := some [0x00, 0x01] }
           (fw.sendStatus { Request with InputBuffer := some [0x00, 0x01] })])) ∧
    (xusbfixerEvtIoDeviceControl fw { deviceContext with InputWaitQueue := none }
        { Request with InputBuffer := some [0x01, 0x01] } 0x8000E004 =
      Call.WdfRequestSend { Request with InputBuffer := some [0x01, 0x01] } true none
          (fw.sendRet { Request with InputBuffer := some [0x01, 0x01] }) ::
        (if fw.sendRet { Request with InputBuffer := some [0x01, 0x01] } = true then []
         else [Call.WdfRequestComplete { Request with InputBuffer := some [0x01, 0x01] }
           (fw.sendStatus { Request with InputBuffer := some [0x01, 0x01] })])) ∧
    (xusbfixerEvtIoDeviceControl fw { deviceContext with InputWaitQueue := none }
        { Request with InputBuffer := some [0x02, 0x01] } 0x8000E004 =
      [Call.WdfRequestComplete { Request with InputBuffer := some [0x02, 0x01] }
        STATUS_INVALID_PARAMETER]) ∧
    (xusbfixerEvtIoDeviceControl fw { deviceContext with InputWaitQueue := none }
        { Request with InputBuffer := some [0x00, 0x02] } 0x8000E004 =
      [Call.WdfRequestComplete { Request with InputBuffer := some [0x00, 0x02] }
        STATUS_INVALID_PARAMETER]) ∧
    (∀ Status, Call.WdfRequestComplete Request Status ∈
        xusbfixerEvtIoDeviceControl fw deviceContext Request IoControlCode →
      xusbfixerEvtIoDeviceControl fw deviceContext Request IoControlCode =
          [Call.WdfRequestComplete Request STATUS_INVALID_PARAMETER] ∨
        (fw.sendRet Request = false ∧ Status = fw.sendStatus Request) ∧
          sends (xusbfixerEvtIoDeviceControl fw deviceContext Request IoControlCode) = 1 ∨
        (NT_SUCCESS (fw.forwardRet Request) = false ∧ Status = fw.forwardRet Request) ∧
          forwards (xusbfixerEvtIoDeviceControl fw deviceContext Request IoControlCode) = 1) := by
  have hSendsPass : sends (xusbfixerDispatchPassThrough fw Request) = 1 := by
    rw [xusbfixerDispatchPassThrough_eq]
    cases fw.sendRet Request <;> simp [sends]
  have hRejected : deviceContext.InputWaitQueue = none ∧ IoControlCode = 0x8000E004 ∧
      (∃ b0 b1 rest, Request.InputBuffer = some (b0 :: b1 :: rest) ∧ (1 < b0 ∨ b1 ≠ 1)) →
      xusbfixerEvtIoDeviceControl fw deviceContext Request IoControlCode =
        [Call.WdfRequestComplete Request STATUS_INVALID_PARAMETER] := by
    rintro ⟨hq, hc, b0, b1, rest, hb, hBytes⟩
    have hr : legacyPayloadRejected (b0 :: b1 :: rest) = true :=
      (legacyPayloadRejected_iff _).2 ⟨b0, b1, rest, rfl, hBytes⟩
    unfold xusbfixerEvtIoDeviceControl
    simp [hq, hc, hb, hr]
  have hPassed : deviceContext.InputWaitQueue = none →
      ¬ (IoControlCode = 0x8000E004 ∧
        ∃ b0 b1 rest, Request.InputBuffer = some (b0 :: b1 :: rest) ∧ (1 < b0 ∨ b1 ≠ 1)) →
      xusbfixerEvtIoDeviceControl fw deviceContext Request IoControlCode =
        xusbfixerDispatchPassThrough fw Request := by
    intro hq hNot
    unfold xusbfixerEvtIoDeviceControl
    rw [hq]
    by_cases hc : IoControlCode = 0x8000E004
    · cases hb : Request.InputBuffer with
      | none => simp [hc]
      | some buffer =>
        have hr : ¬ (legacyPayloadRejected buffer = true) := by
          intro hr
          obtain ⟨b0, b1, rest, hEq, hBytes⟩ := (legacyPayloadRejected_iff buffer).1 hr
          exact hNot ⟨hc, b0, b1, rest, by rw [hb, hEq], hBytes⟩
        simp [hc, hr]
    · simp [hc]
  refine ⟨⟨?_, ?_⟩, hRejected, ?_, ?_, ?_, ?_, ?_, ?_⟩
  · rintro ⟨-, hSends, hForwards⟩
    cases hq : deviceContext.InputWaitQueue with
    | some q =>
      exfalso
      unfold xusbfixerEvtIoDeviceControl at hSends hForwards
      rw [hq] at hSends hForwards
      by_cases hc : IoControlCode = 0x8000E3AC
      · cases hs : NT_SUCCESS (fw.forwardRet Request) <;> simp [hc, hs, forwards] at hForwards
      · simp only [hc, if_false] at hSends
        omega
    | none =>
      by_contra hNot
      have hNot2 : ¬ (IoControlCode = 0x8000E004 ∧
          ∃ b0 b1 rest, Request.InputBuffer = some (b0 :: b1 :: rest) ∧ (1 < b0 ∨ b1 ≠ 1)) :=
        fun h => hNot ⟨rfl, h⟩
      rw [hPassed hq hNot2] at hSends
      omega
  · intro hCond
    rw [hRejected hCond]
    simp [sends, forwards]
  · intro hq hNot
    rw [hPassed hq hNot, xusbfixerDispatchPassThrough_eq]
  · rw [← xusbfixerDispatchPassThrough_eq]
    simp [xusbfixerEvtIoDeviceControl, legacyPayloadRejected]
  · rw [← xusbfixerDispatchPassThrough_eq]
    simp [xusbfixerEvtIoDeviceControl, legacyPayloadRejected]
  · simp [xusbfixerEvtIoDeviceControl, legacyPayloadRejected]
  · simp [xusbfixerEvtIoDeviceControl, legacyPayloadRejected]
  · intro Status hMem
    have hPass : Call.WdfRequestComplete Request Status ∈ xusbfixerDispatchPassThrough fw Request →
        fw.sendRet Request = false ∧ Status = fw.sendStatus Request := by
      unfold xusbfixerDispatchPassThrough
      cases hs : fw.sendRet Request <;> simp
    unfold xusbfixerEvtIoDeviceControl at hMem ⊢
    cases hq : deviceContext.InputWaitQueue with
    | some q =>
      rw [hq] at hMem
      by_cases hc : IoControlCode = 0x8000E3AC
      · cases hs : NT_SUCCESS (fw.forwardRet Request)
        · simp [hc, hs] at hMem
          exact Or.inr (Or.inr ⟨⟨rfl, hMem⟩, by simp [hc, hs, forwards]⟩)
        · simp [hc, hs] at hMem
      · simp only [hc, if_false] at hMem
        exact Or.inr (Or.inl ⟨hPass hMem, by simpa [hc] using hSendsPass⟩)
    | none =>
      rw [hq] at hMem
      by_cases hc : IoControlCode = 0x8000E004
      · cases hb : Request.InputBuffer with
        | none =>
          simp only [hc, hb, if_true] at hMem
          exact Or.inr (Or.inl ⟨hPass hMem, by simpa [hc, hb] using hSendsPass⟩)
        | some buffer =>
          by_cases hr : legacyPayloadRejected buffer = true
          · exact Or.inl (by simp [hc, hr])
          · simp only [hc, hb, hr, if_true, if_false] at hMem
            exact Or.inr (Or.inl ⟨hPass hMem, by simpa [hc, hb, hr] using hSendsPass⟩)
      · simp only [hc, if_false] at hMem
        exact Or.inr (Or.inl ⟨hPass hMem, by simpa [hc] using hSendsPass⟩)

/-- C4 at concrete requests on a device without Gate, with a framework whose
sends succeed: `02 01` is rejected without a send, `00 01` and the one-byte
payload `02` are sent on and not completed. -/
theorem C4_legacy_validation_witness :
    xusbfixerEvtIoDeviceControl (exFramework false) exLegacyContext (exLegacy 1 [0x02, 0x01])
        0x8000E004 = [Call.WdfRequestComplete (exLegacy 1 [0x02, 0x01])
          STATUS_INVALID_PARAMETER] ∧
      xusbfixerEvtIoDeviceControl (exFramework false) exLegacyContext
        (exLegacy 2 [0x00, 0x01]) 0x8000E004 =
          [Call.WdfRequestSend (exLegacy 2 [0x00, 0x01]) true none true] ∧
      xusbfixerEvtIoDeviceControl (exFramework false) exLegacyContext (exLegacy 3 [0x02])
        0x8000E004 = [Call.WdfRequestSend (exLegacy 3 [0x02]) true none true] :=
  ⟨(C4_legacy_validation (exFramework false) exLegacyContext (exLegacy 1 [0x02, 0x01])
      0x8000E004).2.1 ⟨rfl, rfl, 0x02, 0x01, [], rfl, Or.inl (by decide)⟩,
   (C4_legacy_validation (exFramework false) exLegacyContext (exLegacy 2 [0x00, 0x01])
      0x8000E004).2.2.1 rfl (by
        rintro ⟨-, b0, b1, rest, hEq, hBytes⟩
        simp only [exLegacy, Option.some.injEq, List.cons.injEq] at hEq
        obtain ⟨rfl, rfl, -⟩ := hEq
        omega),
   (C4_legacy_validation (exFramework false) exLegacyContext (exLegacy 3 [0x02])
      0x8000E004).2.2.1 rfl (by
        rintro ⟨-, b0, b1, rest, hEq, -⟩
        simp [exLegacy] at hEq)⟩

/-- C4 as stated fails: a request can be completed with
`STATUS_INVALID_PARAMETER` outside the rejection case.  Without Gate, a legacy
request with the accepted payload `00 01` whose send fails is completed with
the status the framework reports, here `STATUS_INVALID_PARAMETER`; and with a
Gate, a wait-for-input request whose enqueue fails with that status is
completed with it. -/
theorem C4_counterexample :
    (xusbfixerEvtIoDeviceControl (exInvalidParameterFramework false) exLegacyContext
          (exLegacy 2 [0x00, 0x01]) 0x8000E004 =
        [Call.WdfRequestSend (exLegacy 2 [0x00, 0x01]) true none false,
         Call.WdfRequestComplete (exLegacy 2 [0x00, 0x01]) STATUS_INVALID_PARAMETER] ∧
      ¬ (∃ b0 b1 rest, (exLegacy 2 [0x00, 0x01]).InputBuffer = some (b0 :: b1 :: rest) ∧
          (1 < b0 ∨ b1 ≠ 1))) ∧
    (xusbfixerEvtIoDeviceControl (exInvalidParameterFramework false) exUpperContext
          (exWait 1) 0x8000E3AC =
        [Call.WdfRequestForwardToIoQueue (exWait 1) exGate STATUS_INVALID_PARAMETER,
         Call.WdfRequestComplete (exWait 1) STATUS_INVALID_PARAMETER] ∧
      exUpperContext.InputWaitQueue ≠ none) := by
  refine ⟨⟨by decide, ?_⟩, by decide, by decide⟩
  rintro ⟨b0, b1, rest, hEq, hBytes⟩
  simp only [exLegacy, Option.some.injEq, List.cons.injEq] at hEq
  obtain ⟨rfl, rfl, -⟩ := hEq
  omega

theorem singleDisposition_passThrough (fw : Framework) (r : WDFREQUEST) :
    singleDisposition r (xusbfixerDispatchPassThrough fw r) := by
  unfold singleDisposition
  rw [handedOff_passThrough, completionCalls_passThrough]
  cases h : fw.sendRet r
  · exact Or.inr ⟨rfl, fw.sendStatus r, by simp⟩
  · exact Or.inl ⟨rfl, by simp⟩

theorem singleDisposition_passThroughAndComplete (fw : Framework) (r : WDFREQUEST)
    (c : PFN_WDF_REQUEST_COMPLETION_ROUTINE) :
    singleDisposition r (xusbfixerDispatchPassThroughAndComplete fw r c) := by
  unfold singleDisposition
  rw [handedOff_passThroughAndComplete, completionCalls_passThroughAndComplete]
  cases h : fw.sendRet r
  · exact Or.inr ⟨rfl, fw.sendStatus r, by simp⟩
  · exact Or.inl ⟨rfl, by simp⟩

/-- Starting a queue neither hands a request off nor completes one. -/
theorem singleDisposition_start (r : WDFREQUEST) (q : WDFQUEUE) (calls : List Call)
    (h : singleDisposition r calls) :
    singleDisposition r ([Call.WdfIoQueueStart q] ++ calls) := by
  simpa [singleDisposition, handedOff, completionCalls] using h

/-- C10: each of the three queue callbacks disposes of its request exactly
once, for every control code, request, context and outcome of the send or
enqueue.  Either the request is handed off (a send that returned `TRUE`, or an
enqueue that returned a success status) and the callback completes nothing, or
it is not handed off and the callback completes it with exactly one call. -/
theorem C10_single_disposition (fw : Framework) (deviceContext : DEVICE_CONTEXT)
    (Request : WDFREQUEST) (IoControlCode : Nat) :
    singleDisposition Request
        (xusbfixerEvtIoDeviceControl fw deviceContext Request IoControlCode) ∧
      singleDisposition Request (xusbfixerDispatchWaitForInput fw Request IoControlCode) ∧
      singleDisposition Request
        (xusbfixerEvtIoInternalDeviceControl fw deviceContext Request IoControlCode) := by
  refine ⟨?_, ?_, ?_⟩
  · unfold xusbfixerEvtIoDeviceControl
    cases hq : deviceContext.InputWaitQueue with
    | some q =>
      by_cases hc : IoControlCode = 0x8000E3AC
      · cases hs : NT_SUCCESS (fw.forwardRet Request)
        · refine Or.inr ⟨?_, fw.forwardRet Request, ?_⟩ <;>
            simp [hc, hs, handedOff, completionCalls]
        · refine Or.inl ⟨?_, ?_⟩ <;> simp [hc, hs, handedOff, completionCalls]
      · simpa [hc] using singleDisposition_passThrough fw Request
    | none =>
      by_cases hc : IoControlCode = 0x8000E004
      · cases hb : Request.InputBuffer with
        | none => simpa [hc] using singleDisposition_passThrough fw Request
        | some buffer =>
          by_cases hr : legacyPayloadRejected buffer = true
          · refine Or.inr ⟨?_, STATUS_INVALID_PARAMETER, ?_⟩ <;>
              simp [hc, hr, handedOff, completionCalls]
          · simpa [hc, hr] using singleDisposition_passThrough fw Request
      · simpa [hc] using singleDisposition_passThrough fw Request
  · unfold xusbfixerDispatchWaitForInput
    by_cases hc : IoControlCode = 0x8000E3AC
    · cases hd : fw.DBG
      · simpa [hc, hd] using singleDisposition_passThrough fw Request
      · simpa [hc, hd] using singleDisposition_passThroughAndComplete fw Request
          PFN_WDF_REQUEST_COMPLETION_ROUTINE.UpperCompletionRoutine
    · refine Or.inr ⟨?_, STATUS_INVALID_PARAMETER_5, ?_⟩ <;>
        simp [hc, handedOff, completionCalls]
  · rw [xusbfixerEvtIoInternalDeviceControl_eq]
    by_cases ht : isDesignatedInputTransfer Request IoControlCode = true
    · rw [if_pos ht]
      cases hq : deviceContext.InputWaitQueue with
      | none =>
        simpa using singleDisposition_passThroughAndComplete fw Request
          PFN_WDF_REQUEST_COMPLETION_ROUTINE.LowerInternalCompletionRoutine
      | some q =>
        exact singleDisposition_start Request q _
          (singleDisposition_passThroughAndComplete fw Request
            PFN_WDF_REQUEST_COMPLETION_ROUTINE.LowerInternalCompletionRoutine)
    · rw [if_neg ht]
      exact singleDisposition_passThrough fw Request

/-- When both queues are created, the upper and the lower context get the same
Gate handle and one reference is taken on it. -/
theorem xusbfixerQueueInitialize_shares_gate :
    (xusbfixerQueueInitialize exCreateOk exFreshUpperContext exFreshLowerContext) =
      { status := STATUS_SUCCESS,
        deviceContext := exUpperContext,
        lowerContext := exLowerContext,
        referenced := [exGate] } := by
  decide

/-- C6, as the code has it: on an upper device with a lower link, if the default
queue is created and the creation of the input wait queue fails,
`xusbfixerQueueInitialize` returns the failure status of that creation, which
is not a success status; neither context is changed, so neither gets a Gate,
and no queue reference is taken. -/
theorem C6_gate_creation_failure_returned
    (WdfIoQueueCreate : WDF_IO_QUEUE_CONFIG → NTSTATUS × WDFQUEUE)
    (deviceContext lowerContext : DEVICE_CONTEXT)
    (hUpper : deviceContext.Upper = true)
    (hLower : deviceContext.LowerDeviceObject.isSome = true)
    (hDefault : NT_SUCCESS (WdfIoQueueCreate (defaultQueueConfig true)).1 = true)
    (hGate : NT_SUCCESS (WdfIoQueueCreate inputWaitQueueConfig).1 = false) :
    (xusbfixerQueueInitialize WdfIoQueueCreate deviceContext lowerContext).status =
        (WdfIoQueueCreate inputWaitQueueConfig).1 ∧
      NT_SUCCESS (xusbfixerQueueInitialize WdfIoQueueCreate deviceContext lowerContext).status =
        false ∧
      (xusbfixerQueueInitialize WdfIoQueueCreate deviceContext lowerContext).deviceContext =
        deviceContext ∧
      (xusbfixerQueueInitialize WdfIoQueueCreate deviceContext lowerContext).lowerContext =
        lowerContext ∧
      (xusbfixerQueueInitialize WdfIoQueueCreate deviceContext lowerContext).referenced = [] := by
  have hInit : xusbfixerQueueInitialize WdfIoQueueCreate deviceContext lowerContext =
      { status := (WdfIoQueueCreate inputWaitQueueConfig).1, deviceContext := deviceContext,
        lowerContext := lowerContext, referenced := [] } := by
    unfold xusbfixerQueueInitialize
    simp [hUpper, hLower, hDefault, hGate]
  rw [hInit]
  exact ⟨rfl, hGate, rfl, rfl, rfl⟩

/-- C6 at a concrete device: the default queue is created, the creation of the
input wait queue fails with `STATUS_INSUFFICIENT_RESOURCES`, and that status is
what the caller gets; the lower context is left without a Gate. -/
theorem C6_gate_creation_failure_returned_witness :
    (xusbfixerQueueInitialize exCreateGateFails exFreshUpperContext
        exFreshLowerContext).status = STATUS_INSUFFICIENT_RESOURCES ∧
      (xusbfixerQueueInitialize exCreateGateFails exFreshUpperContext
        exFreshLowerContext).lowerContext.InputWaitQueue = none :=
  ⟨(C6_gate_creation_failure_returned exCreateGateFails exFreshUpperContext
      exFreshLowerContext rfl rfl (by decide) (by decide)).1,
   by rw [(C6_gate_creation_failure_returned exCreateGateFails exFreshUpperContext
      exFreshLowerContext rfl rfl (by decide) (by decide)).2.2.2.1]; rfl⟩

/-- C6 as stated fails: with an upper device that has a lower link, a default
queue that is created and an input wait queue whose creation fails,
`xusbfixerQueueInitialize` does not report success. -/
theorem C6_counterexample :
    exFreshUpperContext.Upper = true ∧
      exFreshUpperContext.LowerDeviceObject.isSome = true ∧
      NT_SUCCESS (exCreateGateFails (defaultQueueConfig true)).1 = true ∧
      NT_SUCCESS (exCreateGateFails inputWaitQueueConfig).1 = false ∧
      ¬ (NT_SUCCESS (xusbfixerQueueInitialize exCreateGateFails exFreshUpperContext
        exFreshLowerContext).status = true) := by
  decide

/-- C5, as the code has it, for both builds.  From an Open Gate: the first
wait-for-input request is enqueued and sent on at once; the IN transfer on the
designated pipe starts the Gate, which stays Open, and is sent with
`LowerInternalCompletionRoutine`; the second wait-for-input request is
therefore sent on at once as well; the completion with success, length 20 and
byte 0 equal to 0 returns after stopping the Gate, which was Open and is now
Closed, and completing the transfer with its status and information; a third
wait-for-input request is then held and not sent; the next IN transfer starts
the Gate, which is Open again, and the held request is sent on before the
transfer itself. -/
theorem C5_scenario (dbg : Bool) :
    (exOpenWorld.queues exGate).state = QueueState.Started ∧
    ((exStep1 dbg).log =
        [Call.WdfRequestForwardToIoQueue (exWait 1) exGate STATUS_SUCCESS,
         exWaitSent dbg (exWait 1)] ∧
      ((exStep1 dbg).queues exGate).held = []) ∧
    ((exStep2 dbg).log = (exStep1 dbg).log ++
        [Call.WdfIoQueueStart exGate,
         Call.WdfRequestSend (exSubmit 10) false
           (some PFN_WDF_REQUEST_COMPLETION_ROUTINE.LowerInternalCompletionRoutine) true] ∧
      ((exStep2 dbg).queues exGate).state = QueueState.Started) ∧
    ((exStep3 dbg).log = (exStep2 dbg).log ++
        [Call.WdfRequestForwardToIoQueue (exWait 2) exGate STATUS_SUCCESS,
         exWaitSent dbg (exWait 2)] ∧
      ((exStep3 dbg).queues exGate).held = []) ∧
    ∃ step4 step5 step6,
      exStep4 dbg = some step4 ∧ exStep5 dbg = some step5 ∧ exStep6 dbg = some step6 ∧
      (step4.log = (exStep3 dbg).log ++
          [Call.WdfIoQueueStop exGate,
           Call.WdfRequestCompleteWithInformation (exSubmitDone 10) STATUS_SUCCESS 20] ∧
        ((exStep3 dbg).queues exGate).state = QueueState.Started ∧
        (step4.queues exGate).state = QueueState.Stopped) ∧
      (step5.log = step4.log ++
          [Call.WdfRequestForwardToIoQueue (exWait 3) exGate STATUS_SUCCESS] ∧
        (step5.queues exGate).held = [exWait 3] ∧
        (step5.queues exGate).state = QueueState.Stopped) ∧
      (step6.log = step5.log ++
          [Call.WdfIoQueueStart exGate,
           exWaitSent dbg (exWait 3),
           Call.WdfRequestSend (exSubmit 11) false
             (some PFN_WDF_REQUEST_COMPLETION_ROUTINE.LowerInternalCompletionRoutine) true] ∧
        (step6.queues exGate).state = QueueState.Started ∧
        (step6.queues exGate).held = []) := by
  cases dbg
  · refine ⟨by decide, by decide, by decide, by decide, _, _, _, rfl, rfl, rfl, ?_⟩
    decide
  · refine ⟨by decide, by decide, by decide, by decide, _, _, _, rfl, rfl, rfl, ?_⟩
    decide

/-- C5 as stated fails: after the first wait-for-input request and the IN
transfer on the designated pipe, the Gate is Open, not Closed, and the second
wait-for-input request is not held but sent on at once. -/
theorem C5_counterexample :
    (exOpenWorld.queues exGate).state = QueueState.Started ∧
      ((exStep2 false).queues exGate).state ≠ QueueState.Stopped ∧
      ((exStep3 false).queues exGate).held = [] ∧
      Call.WdfRequestSend (exWait 2) true none true ∈ (exStep3 false).log := by
  decide

end Xusbfixer
